import Mathlib

/-!
Verification of the financial calculation engine of `fujimi_business_model.py`
(plus the break-even computation repeated in `streamlit_app.py`) against its
natural-language specification.

Shallow embedding conventions:
* Python floats are embedded as exact rationals (`ℚ`); the float literal `0.33`
  in the source becomes `33 / 100`.
* Python `None`-able numeric arguments become `Option ℚ`; the `x or default`
  idiom of the source is `orDefault` below (both `None` and `0` are falsy).
* Python `float('inf')`, used as the "never recovers" payback sentinel, becomes
  the dedicated constructor `Payback.unbounded`.
* Line numbers in doc comments refer to `src/fujimi_business_model.py` unless
  another file is named.
-/

namespace Fujimi

/-- The global parameter dictionary `self.params` built in
`FujimBusinessModel.__init__` (lines 25–34), as a record with one field per
dictionary key. -/
structure Params where
  owned_initial_investment : ℚ
  rental_initial_investment : ℚ
  base_occupancy_rate : ℚ
  average_price_per_night : ℚ
  owned_properties : ℚ
  rental_properties : ℚ
  depreciation_years : ℚ
  monthly_rent : ℚ
  deriving DecidableEq

/-- The owned-class entry of `self.fixed_costs` (lines 38–42): yearly fixed
costs per property. -/
structure OwnedFixedCosts where
  operations_fixed : ℚ
  utilities_fixed : ℚ
  insurance : ℚ
  deriving DecidableEq

/-- The rental-class entry of `self.fixed_costs` (lines 43–48): yearly fixed
costs per property, including rent. -/
structure RentalFixedCosts where
  rent : ℚ
  operations_fixed : ℚ
  utilities_fixed : ℚ
  insurance : ℚ
  deriving DecidableEq

/-- One entry of `self.variable_costs` (lines 52–63): yearly per-property
variable-cost baselines stated at the 33% reference occupancy. -/
structure VariableCostSchedule where
  operations_variable : ℚ
  utilities_variable : ℚ
  cleaning_maintenance : ℚ
  deriving DecidableEq

/-- The two property classes, the keys `'owned'` and `'rental'` of the cost
dictionaries. -/
inductive PropertyType where
  | owned
  | rental
  deriving DecidableEq

/-- The state of a `FujimBusinessModel` instance: `self.params`,
`self.fixed_costs` and `self.variable_costs` (lines 23–63). -/
structure FujimBusinessModel where
  params : Params
  fixed_costs_owned : OwnedFixedCosts
  fixed_costs_rental : RentalFixedCosts
  variable_costs_owned : VariableCostSchedule
  variable_costs_rental : VariableCostSchedule
  deriving DecidableEq

/-- The model state produced by `FujimBusinessModel.__init__` (lines 23–63),
with every float written as an exact rational. -/
def defaultModel : FujimBusinessModel :=
  { params :=
      { owned_initial_investment := 18900000
        rental_initial_investment := 5500000
        base_occupancy_rate := 33 / 100
        average_price_per_night := 25000
        owned_properties := 15
        rental_properties := 15
        depreciation_years := 7
        monthly_rent := 70000 }
    fixed_costs_owned :=
      { operations_fixed := 400000
        utilities_fixed := 80000
        insurance := 60000 }
    fixed_costs_rental :=
      { rent := 840000
        operations_fixed := 900000
        utilities_fixed := 60000
        insurance := 40000 }
    variable_costs_owned :=
      { operations_variable := 240000 * (33 / 100)
        utilities_variable := 68000 * (33 / 100)
        cleaning_maintenance := 120000 * (33 / 100) }
    variable_costs_rental :=
      { operations_variable := 594000 * (33 / 100)
        utilities_variable := 55000 * (33 / 100)
        cleaning_maintenance := 150000 * (33 / 100) } }

/-- Python's `x or d` applied to an optional numeric argument (lines 89–91 and
137–139): `None` and the number `0` are falsy, so both fall back to the
default. -/
def orDefault (x : Option ℚ) (d : ℚ) : ℚ :=
  match x with
  | none => d
  | some v => if v = 0 then d else v

/-- Payback period: a finite number of years, or the `float('inf')` sentinel
the source returns when operating income is not positive. -/
inductive Payback where
  | finite (years : ℚ)
  | unbounded
  deriving DecidableEq

/-- Function `calculate_annual_revenue` (lines 65–68). -/
def calculate_annual_revenue (occupancy_rate price_per_night num_properties : ℚ) : ℚ :=
  let days_per_year : ℚ := 365
  occupancy_rate * price_per_night * days_per_year * num_properties

/-- Lookup `self.variable_costs[property_type]` (line 77). -/
def FujimBusinessModel.variable_costs (m : FujimBusinessModel) :
    PropertyType → VariableCostSchedule
  | .owned => m.variable_costs_owned
  | .rental => m.variable_costs_rental

/-- Function `calculate_variable_costs` (lines 70–85): each baseline item is scaled by
`occupancy_rate / 0.33` (reference occupancy hard-coded at line 72), the items
are summed in dictionary order, and the sum is multiplied by the property
count. -/
def calculate_variable_costs (m : FujimBusinessModel) (occupancy_rate : ℚ)
    (property_type : PropertyType) (num_properties : ℚ) : ℚ :=
  let base_occupancy : ℚ := 33 / 100
  let occupancy_factor := occupancy_rate / base_occupancy
  let vc := m.variable_costs property_type
  let total_variable_costs :=
    0 + vc.operations_variable * occupancy_factor
      + vc.utilities_variable * occupancy_factor
      + vc.cleaning_maintenance * occupancy_factor
  total_variable_costs * num_properties

/-- The dictionary returned by `calculate_owned_property_metrics`
(lines 123–133). -/
structure OwnedMetrics where
  annual_revenue : ℚ
  noi : ℚ
  total_investment : ℚ
  payback_period : Payback
  roi : ℚ
  total_costs : ℚ
  operating_costs : ℚ
  depreciation : ℚ
  variable_costs : ℚ
  deriving DecidableEq

/-- Function `calculate_owned_property_metrics` (lines 87–133). The three arguments
default to `None` in the source; each is pushed through the `or`-default of
lines 89–91 before use. -/
def calculate_owned_property_metrics (m : FujimBusinessModel)
    (occupancy_rate price_per_night num_properties : Option ℚ) : OwnedMetrics :=
  let occupancy_rate := orDefault occupancy_rate m.params.base_occupancy_rate
  let price_per_night := orDefault price_per_night m.params.average_price_per_night
  let num_properties := orDefault num_properties m.params.owned_properties
  let annual_revenue := calculate_annual_revenue occupancy_rate price_per_night num_properties
  let fixed_operations_cost := m.fixed_costs_owned.operations_fixed * num_properties
  let fixed_utilities_cost := m.fixed_costs_owned.utilities_fixed * num_properties
  let insurance_cost := m.fixed_costs_owned.insurance * num_properties
  let total_variable_costs := calculate_variable_costs m occupancy_rate .owned num_properties
  let operating_costs :=
    fixed_operations_cost + fixed_utilities_cost + insurance_cost + total_variable_costs
  let noi := annual_revenue - operating_costs
  let depreciation := m.params.owned_initial_investment * num_properties / m.params.depreciation_years
  let total_costs := operating_costs + depreciation
  let total_investment := m.params.owned_initial_investment * num_properties
  let payback_period :=
    if 0 < noi then Payback.finite (total_investment / noi) else Payback.unbounded
  let roi := if 0 < total_investment then noi / total_investment * 100 else 0
  { annual_revenue := annual_revenue
    noi := noi
    total_investment := total_investment
    payback_period := payback_period
    roi := roi
    total_costs := total_costs
    operating_costs := operating_costs
    depreciation := depreciation
    variable_costs := total_variable_costs }

/-- The dictionary returned by `calculate_rental_property_metrics`
(lines 168–177). -/
structure RentalMetrics where
  annual_revenue : ℚ
  operating_profit : ℚ
  total_investment : ℚ
  payback_period : Payback
  roi : ℚ
  total_costs : ℚ
  fixed_costs : ℚ
  variable_costs : ℚ
  deriving DecidableEq

/-- Function `calculate_rental_property_metrics` (lines 135–177). -/
def calculate_rental_property_metrics (m : FujimBusinessModel)
    (occupancy_rate price_per_night num_properties : Option ℚ) : RentalMetrics :=
  let occupancy_rate := orDefault occupancy_rate m.params.base_occupancy_rate
  let price_per_night := orDefault price_per_night m.params.average_price_per_night
  let num_properties := orDefault num_properties m.params.rental_properties
  let annual_revenue := calculate_annual_revenue occupancy_rate price_per_night num_properties
  let rent_cost := m.fixed_costs_rental.rent * num_properties
  let fixed_operations_cost := m.fixed_costs_rental.operations_fixed * num_properties
  let fixed_utilities_cost := m.fixed_costs_rental.utilities_fixed * num_properties
  let insurance_cost := m.fixed_costs_rental.insurance * num_properties
  let total_fixed_costs := rent_cost + fixed_operations_cost + fixed_utilities_cost + insurance_cost
  let total_variable_costs := calculate_variable_costs m occupancy_rate .rental num_properties
  let total_costs := total_fixed_costs + total_variable_costs
  let operating_profit := annual_revenue - total_costs
  let total_investment := m.params.rental_initial_investment * num_properties
  let payback_period :=
    if 0 < operating_profit then Payback.finite (total_investment / operating_profit)
    else Payback.unbounded
  let roi := if 0 < total_investment then operating_profit / total_investment * 100 else 0
  { annual_revenue := annual_revenue
    operating_profit := operating_profit
    total_investment := total_investment
    payback_period := payback_period
    roi := roi
    total_costs := total_costs
    fixed_costs := total_fixed_costs
    variable_costs := total_variable_costs }

/-- The dictionary returned by `calculate_total_metrics` (lines 191–199). -/
structure TotalMetrics where
  total_revenue : ℚ
  total_profit : ℚ
  total_investment : ℚ
  overall_payback : Payback
  overall_roi : ℚ
  owned_metrics : OwnedMetrics
  rental_metrics : RentalMetrics
  deriving DecidableEq

/-- Function `calculate_total_metrics` (lines 179–199): evaluates both classes with the
given occupancy and price (property counts left at `None`, so they come from
`self.params`) and aggregates. -/
def calculate_total_metrics (m : FujimBusinessModel)
    (occupancy_rate price_per_night : Option ℚ) : TotalMetrics :=
  let owned_metrics := calculate_owned_property_metrics m occupancy_rate price_per_night none
  let rental_metrics := calculate_rental_property_metrics m occupancy_rate price_per_night none
  let total_revenue := owned_metrics.annual_revenue + rental_metrics.annual_revenue
  let total_profit := owned_metrics.noi + rental_metrics.operating_profit
  let total_investment := owned_metrics.total_investment + rental_metrics.total_investment
  let overall_payback :=
    if 0 < total_profit then Payback.finite (total_investment / total_profit)
    else Payback.unbounded
  let overall_roi := if 0 < total_investment then total_profit / total_investment * 100 else 0
  { total_revenue := total_revenue
    total_profit := total_profit
    total_investment := total_investment
    overall_payback := overall_payback
    overall_roi := overall_roi
    owned_metrics := owned_metrics
    rental_metrics := rental_metrics }

/-- The fixed-cost total of the break-even analysis in
`create_comprehensive_analysis` (`fujimi_business_model.py` lines 491–500):
both classes' fixed-cost entries at 15 properties each — no depreciation and
no variable costs enter the sum. -/
def comprehensive_fixed_cost_total (m : FujimBusinessModel) : ℚ :=
  (m.fixed_costs_owned.operations_fixed + m.fixed_costs_owned.utilities_fixed
      + m.fixed_costs_owned.insurance) * 15
    + (m.fixed_costs_rental.rent + m.fixed_costs_rental.operations_fixed
      + m.fixed_costs_rental.utilities_fixed + m.fixed_costs_rental.insurance) * 15

/-- The cash fixed-cost total of the break-even tab in `streamlit_app.py`
(lines 471–482): both classes' fixed-cost entries at the given property
counts, excluding depreciation and all variable costs. -/
def streamlit_total_fixed_costs (m : FujimBusinessModel)
    (owned_properties rental_properties : ℚ) : ℚ :=
  (m.fixed_costs_owned.operations_fixed + m.fixed_costs_owned.utilities_fixed
      + m.fixed_costs_owned.insurance) * owned_properties
    + (m.fixed_costs_rental.rent + m.fixed_costs_rental.operations_fixed
      + m.fixed_costs_rental.utilities_fixed + m.fixed_costs_rental.insurance)
      * rental_properties

/-- The break-even occupancy of `streamlit_app.py` lines 484–488, as the code
stores it: `(breakeven_days / 365) * 100`, a display percentage. The
break-even occupancy *rate* is this value divided by 100. -/
def breakeven_occupancy_pct (m : FujimBusinessModel)
    (owned_properties rental_properties price_per_night : ℚ) : ℚ :=
  let total_fixed_costs := streamlit_total_fixed_costs m owned_properties rental_properties
  let total_properties := owned_properties + rental_properties
  let daily_revenue_potential := price_per_night * total_properties
  let breakeven_days := total_fixed_costs / daily_revenue_potential
  breakeven_days / 365 * 100

/-- The break-even occupancy of `create_comprehensive_analysis`
(`fujimi_business_model.py` lines 499–507), with its hard-coded price 25000
and 30 total properties, again stored as a display percentage. -/
def comprehensive_breakeven_occupancy_pct (m : FujimBusinessModel) : ℚ :=
  let total_fixed_costs := comprehensive_fixed_cost_total m
  let daily_revenue_potential : ℚ := 25000 * 30
  let breakeven_days := total_fixed_costs / daily_revenue_potential
  breakeven_days / 365 * 100

/-- Numpy's `np.linspace(min_val, max_val, steps)` as called at line 203: `steps`
evenly spaced points from `min_val` to `max_val` inclusive; numpy returns the
single point `min_val` when `steps = 1` and an empty array when `steps = 0`,
raising no error in either case. -/
def linspace (min_val max_val : ℚ) (steps : ℕ) : List ℚ :=
  if steps = 0 then []
  else if steps = 1 then [min_val]
  else List.map
    (fun i : ℕ => min_val + (max_val - min_val) * (i : ℚ) / ((steps : ℚ) - 1))
    (List.range steps)

/-- The assignment `self.params[param_name] = val` of line 214, projected onto
the eight keys the engine reads. The Python dictionary also stores assignments
to any other key, but no metric computation reads such a key, so for the
metrics produced by the sweep an unknown name leaves the effective parameters
unchanged; the dictionary-level effect of the assignment itself is modelled
separately by `sensitivity_params_after` below. -/
def setParamsField (p : Params) (param_name : String) (val : ℚ) : Params :=
  if param_name = "owned_initial_investment" then { p with owned_initial_investment := val }
  else if param_name = "rental_initial_investment" then { p with rental_initial_investment := val }
  else if param_name = "base_occupancy_rate" then { p with base_occupancy_rate := val }
  else if param_name = "average_price_per_night" then { p with average_price_per_night := val }
  else if param_name = "owned_properties" then { p with owned_properties := val }
  else if param_name = "rental_properties" then { p with rental_properties := val }
  else if param_name = "depreciation_years" then { p with depreciation_years := val }
  else if param_name = "monthly_rent" then { p with monthly_rent := val }
  else p

/-- One result row appended by `sensitivity_analysis` (lines 218–223): the
swept value and the three aggregate figures. -/
structure SensitivityRow where
  value : ℚ
  total_profit : ℚ
  overall_roi : ℚ
  overall_payback : Payback
  deriving DecidableEq

/-- The error the specification's §7 prescribes for invalid inputs. The source
defines no such class and performs no validation, so the embedded sweep below
never produces one. -/
structure ConfigurationError where
  message : String
  deriving DecidableEq

/-- Function `sensitivity_analysis` (lines 201–225): the rows of the sweep, exposed
through the error channel the specification's §7 prescribes for invalid
calls. The Python body contains no validation and no raise — `np.linspace`
silently yields one point for `steps = 1` and nothing for `steps = 0`, and
every iteration appends a row — so the embedding returns `Except.ok`
unconditionally. -/
def sensitivity_analysis (m : FujimBusinessModel) (param_name : String)
    (min_val max_val : ℚ) (steps : ℕ) :
    Except ConfigurationError (List SensitivityRow) :=
  Except.ok <| List.map
    (fun val =>
      let metrics :=
        if param_name = "occupancy_rate" then
          calculate_total_metrics m (some val) none
        else if param_name = "price_per_night" then
          calculate_total_metrics m none (some val)
        else
          calculate_total_metrics
            { m with params := setParamsField m.params param_name val } none none
      { value := val
        total_profit := metrics.total_profit
        overall_roi := metrics.overall_roi
        overall_payback := metrics.overall_payback })
    (linspace min_val max_val steps)

/-- A value stored in the `self.params` dictionary: a number, or the `None`
that `dict.get` returns for a missing key (and that the restore step of the
sweep can write back). -/
inductive PyVal where
  | pnum (q : ℚ)
  | pnone
  deriving DecidableEq

/-- The `self.params` dictionary as an insertion-ordered association list. -/
abbrev ParamsDict := List (String × PyVal)

/-- Key lookup in a `ParamsDict`: the first binding of the key, `none` when
the key is absent. -/
def dictFind : ParamsDict → String → Option PyVal
  | [], _ => none
  | (k', v') :: rest, k => if k' = k then some v' else dictFind rest k

/-- Assignment `d[k] = v`: overwrite the binding of `k` in place, or append a new binding
at the end (Python dictionaries preserve insertion order). -/
def dictSet : ParamsDict → String → PyVal → ParamsDict
  | [], k, v => [(k, v)]
  | (k', v') :: rest, k, v =>
      if k' = k then (k, v) :: rest else (k', v') :: dictSet rest k v

/-- Expression `self.params.get(param_name)` at line 213, as the Python value bound to
`original_val`: `None` when the key is missing. -/
def dictGetDefault (d : ParamsDict) (k : String) : PyVal :=
  (dictFind d k).getD PyVal.pnone

/-- One iteration of the generic branch of the sweep loop (lines 212–216),
projected onto the dictionary state: save `self.params.get(param_name)`,
overwrite the entry with the sweep value, evaluate the metrics (which read but
never write `self.params`), then write the saved value back. -/
def sweep_step_params (param_name : String) (d : ParamsDict) (val : ℚ) : ParamsDict :=
  let original_val := dictGetDefault d param_name
  dictSet (dictSet d param_name (PyVal.pnum val)) param_name original_val

/-- The `self.params` dictionary after `sensitivity_analysis` returns
(lines 206–216), as a function of the dictionary before the call: the
`occupancy_rate` and `price_per_night` branches never touch it, and the
generic branch runs `sweep_step_params` once per sweep value. -/
def sensitivity_params_after (d : ParamsDict) (param_name : String)
    (min_val max_val : ℚ) (steps : ℕ) : ParamsDict :=
  if param_name = "occupancy_rate" then d
  else if param_name = "price_per_night" then d
  else (linspace min_val max_val steps).foldl (sweep_step_params param_name) d

/-- The `self.params` dictionary built by `__init__` (lines 25–34), in its
insertion order. -/
def defaultParamsDict : ParamsDict :=
  [("owned_initial_investment", PyVal.pnum 18900000),
   ("rental_initial_investment", PyVal.pnum 5500000),
   ("base_occupancy_rate", PyVal.pnum (33 / 100)),
   ("average_price_per_night", PyVal.pnum 25000),
   ("owned_properties", PyVal.pnum 15),
   ("rental_properties", PyVal.pnum 15),
   ("depreciation_years", PyVal.pnum 7),
   ("monthly_rent", PyVal.pnum 70000)]

example : (calculate_owned_property_metrics defaultModel none none none).noi = 34950150 := by
  norm_num [calculate_owned_property_metrics, calculate_annual_revenue,
    calculate_variable_costs, FujimBusinessModel.variable_costs, orDefault, defaultModel]

example :
    (calculate_rental_property_metrics defaultModel none none none).operating_profit
      = 13613700 := by
  norm_num [calculate_rental_property_metrics, calculate_annual_revenue,
    calculate_variable_costs, FujimBusinessModel.variable_costs, orDefault, defaultModel]

example : (calculate_total_metrics defaultModel none none).total_revenue = 90337500 := by
  norm_num [calculate_total_metrics, calculate_owned_property_metrics,
    calculate_rental_property_metrics, calculate_annual_revenue,
    calculate_variable_costs, FujimBusinessModel.variable_costs, orDefault, defaultModel]

/-- Unfolding lemma for the owned payback field (line 118 of the source). -/
theorem owned_payback_def (m : FujimBusinessModel) (occ price cnt : Option ℚ) :
    (calculate_owned_property_metrics m occ price cnt).payback_period =
      (if 0 < (calculate_owned_property_metrics m occ price cnt).noi
       then Payback.finite ((calculate_owned_property_metrics m occ price cnt).total_investment
              / (calculate_owned_property_metrics m occ price cnt).noi)
       else Payback.unbounded) := rfl

/-- Unfolding lemma for the owned ROI field (line 121 of the source). -/
theorem owned_roi_def (m : FujimBusinessModel) (occ price cnt : Option ℚ) :
    (calculate_owned_property_metrics m occ price cnt).roi =
      (if 0 < (calculate_owned_property_metrics m occ price cnt).total_investment
       then (calculate_owned_property_metrics m occ price cnt).noi
              / (calculate_owned_property_metrics m occ price cnt).total_investment * 100
       else 0) := rfl

/-- Unfolding lemma for the rental payback field (line 163 of the source). -/
theorem rental_payback_def (m : FujimBusinessModel) (occ price cnt : Option ℚ) :
    (calculate_rental_property_metrics m occ price cnt).payback_period =
      (if 0 < (calculate_rental_property_metrics m occ price cnt).operating_profit
       then Payback.finite ((calculate_rental_property_metrics m occ price cnt).total_investment
              / (calculate_rental_property_metrics m occ price cnt).operating_profit)
       else Payback.unbounded) := rfl

/-- Unfolding lemma for the rental ROI field (line 166 of the source). -/
theorem rental_roi_def (m : FujimBusinessModel) (occ price cnt : Option ℚ) :
    (calculate_rental_property_metrics m occ price cnt).roi =
      (if 0 < (calculate_rental_property_metrics m occ price cnt).total_investment
       then (calculate_rental_property_metrics m occ price cnt).operating_profit
              / (calculate_rental_property_metrics m occ price cnt).total_investment * 100
       else 0) := rfl

/-- Unfolding lemma for the aggregate payback field (line 188 of the source). -/
theorem overall_payback_def (m : FujimBusinessModel) (occ price : Option ℚ) :
    (calculate_total_metrics m occ price).overall_payback =
      (if 0 < (calculate_total_metrics m occ price).total_profit
       then Payback.finite ((calculate_total_metrics m occ price).total_investment
              / (calculate_total_metrics m occ price).total_profit)
       else Payback.unbounded) := rfl

/-- Unfolding lemma for the aggregate ROI field (line 189 of the source). -/
theorem overall_roi_def (m : FujimBusinessModel) (occ price : Option ℚ) :
    (calculate_total_metrics m occ price).overall_roi =
      (if 0 < (calculate_total_metrics m occ price).total_investment
       then (calculate_total_metrics m occ price).total_profit
              / (calculate_total_metrics m occ price).total_investment * 100
       else 0) := rfl

/-- C1: the engine's annual revenue is `occupancyRate × pricePerNight × 365 ×
propertyCount`, with a fixed 365-day year, and both property classes compute
their `annual_revenue` field through this one formula applied to their
effective (defaulted) arguments. -/
theorem annual_revenue_formula (m : FujimBusinessModel)
    (r p n : ℚ) (occ price cnt : Option ℚ) :
    calculate_annual_revenue r p n = r * p * 365 * n ∧
    (calculate_owned_property_metrics m occ price cnt).annual_revenue
      = calculate_annual_revenue (orDefault occ m.params.base_occupancy_rate)
          (orDefault price m.params.average_price_per_night)
          (orDefault cnt m.params.owned_properties) ∧
    (calculate_rental_property_metrics m occ price cnt).annual_revenue
      = calculate_annual_revenue (orDefault occ m.params.base_occupancy_rate)
          (orDefault price m.params.average_price_per_night)
          (orDefault cnt m.params.rental_properties) := by
  refine ⟨rfl, rfl, rfl⟩

/-- C2: for either class, variable cost at occupancy `r` is the property count
times the sum over cost items of `baseline × r / (33/100)` with no floor or
cap; for `r` with `r` and `2r` inside the valid occupancy domain, the cost at
`2r` is exactly twice the cost at `r`; and the cost at occupancy `0` is `0`. -/
theorem variable_costs_linear (m : FujimBusinessModel) (pt : PropertyType) (n r : ℚ)
    (h1 : 0 < r) (h2 : 2 * r ≤ 1) :
    calculate_variable_costs m r pt n
      = n * ((m.variable_costs pt).operations_variable * (r / (33 / 100))
           + (m.variable_costs pt).utilities_variable * (r / (33 / 100))
           + (m.variable_costs pt).cleaning_maintenance * (r / (33 / 100))) ∧
    calculate_variable_costs m (2 * r) pt n = 2 * calculate_variable_costs m r pt n ∧
    calculate_variable_costs m 0 pt n = 0 := by
  unfold calculate_variable_costs
  refine ⟨by ring, by ring, by ring⟩

/-- Witness for C2 at `r = 1/4`, the owned schedule and 15 properties. -/
theorem variable_costs_linear_witness :
    calculate_variable_costs defaultModel (2 * (1 / 4)) PropertyType.owned 15
      = 2 * calculate_variable_costs defaultModel (1 / 4) PropertyType.owned 15 :=
  (variable_costs_linear defaultModel PropertyType.owned 15 (1 / 4)
    (by norm_num) (by norm_num)).2.1

/-- C3: for the owned class, the rental class and the portfolio aggregate, the
payback period equals `totalInvestment / operatingIncome` when the operating
income is positive, and the unbounded (infinite) sentinel whenever it is `≤ 0`;
a negative operating income therefore never yields a finite payback. -/
theorem payback_rule (m : FujimBusinessModel) (occ price cnt : Option ℚ) :
    (0 < (calculate_owned_property_metrics m occ price cnt).noi →
      (calculate_owned_property_metrics m occ price cnt).payback_period
        = Payback.finite ((calculate_owned_property_metrics m occ price cnt).total_investment
            / (calculate_owned_property_metrics m occ price cnt).noi)) ∧
    ((calculate_owned_property_metrics m occ price cnt).noi ≤ 0 →
      (calculate_owned_property_metrics m occ price cnt).payback_period = Payback.unbounded) ∧
    (0 < (calculate_rental_property_metrics m occ price cnt).operating_profit →
      (calculate_rental_property_metrics m occ price cnt).payback_period
        = Payback.finite ((calculate_rental_property_metrics m occ price cnt).total_investment
            / (calculate_rental_property_metrics m occ price cnt).operating_profit)) ∧
    ((calculate_rental_property_metrics m occ price cnt).operating_profit ≤ 0 →
      (calculate_rental_property_metrics m occ price cnt).payback_period = Payback.unbounded) ∧
    (0 < (calculate_total_metrics m occ price).total_profit →
      (calculate_total_metrics m occ price).overall_payback
        = Payback.finite ((calculate_total_metrics m occ price).total_investment
            / (calculate_total_metrics m occ price).total_profit)) ∧
    ((calculate_total_metrics m occ price).total_profit ≤ 0 →
      (calculate_total_metrics m occ price).overall_payback = Payback.unbounded) := by
  refine ⟨fun h => ?_, fun h => ?_, fun h => ?_, fun h => ?_, fun h => ?_, fun h => ?_⟩
  · rw [owned_payback_def, if_pos h]
  · rw [owned_payback_def, if_neg (not_lt.mpr h)]
  · rw [rental_payback_def, if_pos h]
  · rw [rental_payback_def, if_neg (not_lt.mpr h)]
  · rw [overall_payback_def, if_pos h]
  · rw [overall_payback_def, if_neg (not_lt.mpr h)]

/-- Witness for C3: at the baseline parameters the owned class has positive
income and a finite payback, while at 1% occupancy the rental class has
negative income and the unbounded sentinel. -/
theorem payback_rule_witness :
    (calculate_owned_property_metrics defaultModel none none none).payback_period
      = Payback.finite ((calculate_owned_property_metrics defaultModel none none none).total_investment
          / (calculate_owned_property_metrics defaultModel none none none).noi) ∧
    (calculate_rental_property_metrics defaultModel (some (1 / 100)) none none).payback_period
      = Payback.unbounded := by
  refine ⟨(payback_rule defaultModel none none none).1 ?_,
          ((payback_rule defaultModel (some (1 / 100)) none none).2.2.2.1 ?_)⟩
  · norm_num [calculate_owned_property_metrics, calculate_annual_revenue,
      calculate_variable_costs, FujimBusinessModel.variable_costs, orDefault, defaultModel]
  · norm_num [calculate_rental_property_metrics, calculate_annual_revenue,
      calculate_variable_costs, FujimBusinessModel.variable_costs, orDefault, defaultModel]

/-- C9: for the owned class, the rental class and the portfolio aggregate,
zero total investment yields ROI `0`, and a nonzero (valid, hence positive)
total investment yields ROI `operatingIncome / totalInvestment × 100`. -/
theorem roi_rule (m : FujimBusinessModel) (occ price cnt : Option ℚ) :
    ((calculate_owned_property_metrics m occ price cnt).total_investment = 0 →
      (calculate_owned_property_metrics m occ price cnt).roi = 0) ∧
    (0 ≤ (calculate_owned_property_metrics m occ price cnt).total_investment →
      (calculate_owned_property_metrics m occ price cnt).total_investment ≠ 0 →
      (calculate_owned_property_metrics m occ price cnt).roi
        = (calculate_owned_property_metrics m occ price cnt).noi
            / (calculate_owned_property_metrics m occ price cnt).total_investment * 100) ∧
    ((calculate_rental_property_metrics m occ price cnt).total_investment = 0 →
      (calculate_rental_property_metrics m occ price cnt).roi = 0) ∧
    (0 ≤ (calculate_rental_property_metrics m occ price cnt).total_investment →
      (calculate_rental_property_metrics m occ price cnt).total_investment ≠ 0 →
      (calculate_rental_property_metrics m occ price cnt).roi
        = (calculate_rental_property_metrics m occ price cnt).operating_profit
            / (calculate_rental_property_metrics m occ price cnt).total_investment * 100) ∧
    ((calculate_total_metrics m occ price).total_investment = 0 →
      (calculate_total_metrics m occ price).overall_roi = 0) ∧
    (0 ≤ (calculate_total_metrics m occ price).total_investment →
      (calculate_total_metrics m occ price).total_investment ≠ 0 →
      (calculate_total_metrics m occ price).overall_roi
        = (calculate_total_metrics m occ price).total_profit
            / (calculate_total_metrics m occ price).total_investment * 100) := by
  refine ⟨fun h => ?_, fun h0 h => ?_, fun h => ?_, fun h0 h => ?_, fun h => ?_, fun h0 h => ?_⟩
  · rw [owned_roi_def, if_neg (by rw [h]; exact lt_irrefl 0)]
  · rw [owned_roi_def, if_pos (lt_of_le_of_ne h0 (Ne.symm h))]
  · rw [rental_roi_def, if_neg (by rw [h]; exact lt_irrefl 0)]
  · rw [rental_roi_def, if_pos (lt_of_le_of_ne h0 (Ne.symm h))]
  · rw [overall_roi_def, if_neg (by rw [h]; exact lt_irrefl 0)]
  · rw [overall_roi_def, if_pos (lt_of_le_of_ne h0 (Ne.symm h))]

/-- Witness for C9: the baseline owned-class investment is positive, so ROI is
the division formula; a model with a zero per-unit owned investment has zero
investment and ROI `0`. -/
theorem roi_rule_witness :
    (calculate_owned_property_metrics defaultModel none none none).roi
      = (calculate_owned_property_metrics defaultModel none none none).noi
          / (calculate_owned_property_metrics defaultModel none none none).total_investment
          * 100 ∧
    (calculate_rental_property_metrics
        { defaultModel with params := { defaultModel.params with rental_initial_investment := 0 } }
        none none none).roi = 0 := by
  refine ⟨(roi_rule defaultModel none none none).2.1 ?_ ?_,
          ((roi_rule
              { defaultModel with params := { defaultModel.params with rental_initial_investment := 0 } }
              none none none).2.2.1 ?_)⟩
  · norm_num [calculate_owned_property_metrics, calculate_annual_revenue,
      calculate_variable_costs, FujimBusinessModel.variable_costs, orDefault, defaultModel]
  · norm_num [calculate_owned_property_metrics, calculate_annual_revenue,
      calculate_variable_costs, FujimBusinessModel.variable_costs, orDefault, defaultModel]
  · norm_num [calculate_rental_property_metrics, calculate_annual_revenue,
      calculate_variable_costs, FujimBusinessModel.variable_costs, orDefault, defaultModel]

/-- C4: portfolio aggregation — total revenue, total operating income and
total investment are exactly the sums of the two class figures, and the
aggregate ROI and payback obey the same zero-investment and non-positive-income
rules as the per-class metrics, applied to the aggregate values. -/
theorem portfolio_aggregation (m : FujimBusinessModel) (occ price : Option ℚ) :
    (calculate_total_metrics m occ price).total_revenue
      = (calculate_owned_property_metrics m occ price none).annual_revenue
        + (calculate_rental_property_metrics m occ price none).annual_revenue ∧
    (calculate_total_metrics m occ price).total_profit
      = (calculate_owned_property_metrics m occ price none).noi
        + (calculate_rental_property_metrics m occ price none).operating_profit ∧
    (calculate_total_metrics m occ price).total_investment
      = (calculate_owned_property_metrics m occ price none).total_investment
        + (calculate_rental_property_metrics m occ price none).total_investment ∧
    (0 < (calculate_total_metrics m occ price).total_profit →
      (calculate_total_metrics m occ price).overall_payback
        = Payback.finite ((calculate_total_metrics m occ price).total_investment
            / (calculate_total_metrics m occ price).total_profit)) ∧
    ((calculate_total_metrics m occ price).total_profit ≤ 0 →
      (calculate_total_metrics m occ price).overall_payback = Payback.unbounded) ∧
    ((calculate_total_metrics m occ price).total_investment = 0 →
      (calculate_total_metrics m occ price).overall_roi = 0) ∧
    (0 ≤ (calculate_total_metrics m occ price).total_investment →
      (calculate_total_metrics m occ price).total_investment ≠ 0 →
      (calculate_total_metrics m occ price).overall_roi
        = (calculate_total_metrics m occ price).total_profit
            / (calculate_total_metrics m occ price).total_investment * 100) := by
  refine ⟨rfl, rfl, rfl, fun h => ?_, fun h => ?_, fun h => ?_, fun h0 h => ?_⟩
  · rw [overall_payback_def, if_pos h]
  · rw [overall_payback_def, if_neg (not_lt.mpr h)]
  · rw [overall_roi_def, if_neg (by rw [h]; exact lt_irrefl 0)]
  · rw [overall_roi_def, if_pos (lt_of_le_of_ne h0 (Ne.symm h))]

/-- Witness for C4: at the baseline parameters the aggregate income and
investment are positive, so the aggregate ROI and payback take the
division-formula branches. -/
theorem portfolio_aggregation_witness :
    (calculate_total_metrics defaultModel none none).overall_payback
      = Payback.finite ((calculate_total_metrics defaultModel none none).total_investment
          / (calculate_total_metrics defaultModel none none).total_profit) ∧
    (calculate_total_metrics defaultModel none none).overall_roi
      = (calculate_total_metrics defaultModel none none).total_profit
          / (calculate_total_metrics defaultModel none none).total_investment * 100 := by
  refine ⟨(portfolio_aggregation defaultModel none none).2.2.2.1 ?_,
          (portfolio_aggregation defaultModel none none).2.2.2.2.2.2 ?_ ?_⟩
  · norm_num [calculate_total_metrics, calculate_owned_property_metrics,
      calculate_rental_property_metrics, calculate_annual_revenue,
      calculate_variable_costs, FujimBusinessModel.variable_costs, orDefault, defaultModel]
  · norm_num [calculate_total_metrics, calculate_owned_property_metrics,
      calculate_rental_property_metrics, calculate_annual_revenue,
      calculate_variable_costs, FujimBusinessModel.variable_costs, orDefault, defaultModel]
  · norm_num [calculate_total_metrics, calculate_owned_property_metrics,
      calculate_rental_property_metrics, calculate_annual_revenue,
      calculate_variable_costs, FujimBusinessModel.variable_costs, orDefault, defaultModel]

/-- C10: at the per-class metric interface, passing `0` for occupancy rate,
price per night or property count is silently replaced by the corresponding
baseline default of the parameter set (`or`-substitution, lines 89–91 and
137–139), so the returned metrics equal the metrics computed with the default;
on the default model those baselines are 0.33, 25000 and 15. -/
theorem zero_argument_default_substitution (m : FujimBusinessModel)
    (occ price cnt : Option ℚ) :
    calculate_owned_property_metrics m (some 0) price cnt
      = calculate_owned_property_metrics m none price cnt ∧
    calculate_owned_property_metrics m occ (some 0) cnt
      = calculate_owned_property_metrics m occ none cnt ∧
    calculate_owned_property_metrics m occ price (some 0)
      = calculate_owned_property_metrics m occ price none ∧
    calculate_rental_property_metrics m (some 0) price cnt
      = calculate_rental_property_metrics m none price cnt ∧
    calculate_rental_property_metrics m occ (some 0) cnt
      = calculate_rental_property_metrics m occ none cnt ∧
    calculate_rental_property_metrics m occ price (some 0)
      = calculate_rental_property_metrics m occ price none ∧
    defaultModel.params.base_occupancy_rate = 33 / 100 ∧
    defaultModel.params.average_price_per_night = 25000 ∧
    defaultModel.params.owned_properties = 15 ∧
    defaultModel.params.rental_properties = 15 := by
  have h : ∀ d : ℚ, orDefault (some 0) d = orDefault none d := by
    intro d
    simp [orDefault]
  refine ⟨?_, ?_, ?_, ?_, ?_, ?_, rfl, rfl, rfl, rfl⟩ <;>
    simp only [calculate_owned_property_metrics, calculate_rental_property_metrics, h]

/-- C6 counterexample: at occupancy 0.33, price 25000 and 15 owned properties,
the engine's owned annual revenue is `0.33 × 25000 × 365 × 15 = 45168750`, not
the value 45151875 the claim asserts (likewise the total is 90337500, not
90303750). -/
theorem concrete_revenue_counterexample :
    (calculate_owned_property_metrics defaultModel (some (33 / 100)) (some 25000)
        (some 15)).annual_revenue = 45168750 ∧
    ¬ (calculate_owned_property_metrics defaultModel (some (33 / 100)) (some 25000)
        (some 15)).annual_revenue = 45151875 ∧
    ¬ (calculate_total_metrics defaultModel (some (33 / 100)) (some 25000)).total_revenue
        = 90303750 := by
  refine ⟨?_, ?_, ?_⟩ <;>
    norm_num [calculate_total_metrics, calculate_owned_property_metrics,
      calculate_rental_property_metrics, calculate_annual_revenue,
      calculate_variable_costs, FujimBusinessModel.variable_costs, orDefault, defaultModel]

/-- C6 amended: with occupancy 0.33, price 25000, 15 owned and 15 rental
properties (and the default investment and depreciation assumptions), the
engine produces owned annual revenue 45168750, rental annual revenue 45168750,
and total revenue 90337500. -/
theorem concrete_revenue_values :
    (calculate_total_metrics defaultModel (some (33 / 100))
        (some 25000)).owned_metrics.annual_revenue = 45168750 ∧
    (calculate_total_metrics defaultModel (some (33 / 100))
        (some 25000)).rental_metrics.annual_revenue = 45168750 ∧
    (calculate_total_metrics defaultModel (some (33 / 100)) (some 25000)).total_revenue
      = 90337500 := by
  refine ⟨?_, ?_, ?_⟩ <;>
    norm_num [calculate_total_metrics, calculate_owned_property_metrics,
      calculate_rental_property_metrics, calculate_annual_revenue,
      calculate_variable_costs, FujimBusinessModel.variable_costs, orDefault, defaultModel]

/-- C5: the break-even occupancy rate (the stored percentage divided by 100)
equals `totalFixedCosts / (pricePerNight × totalPropertyCount × 365)`, where
`totalFixedCosts` is the cash fixed-cost sum of both classes; in the
30-property, price-25000 report that fixed-cost total is 35,700,000 and the
rate is exactly `35700000 / (25000 × 30 × 365)`. -/
theorem breakeven_occupancy_formula (m : FujimBusinessModel) (op rp price : ℚ) :
    breakeven_occupancy_pct m op rp price / 100
      = streamlit_total_fixed_costs m op rp / (price * (op + rp) * 365) ∧
    comprehensive_fixed_cost_total defaultModel = 35700000 ∧
    comprehensive_breakeven_occupancy_pct defaultModel / 100
      = 35700000 / (25000 * 30 * 365) := by
  refine ⟨?_, ?_, ?_⟩
  · show streamlit_total_fixed_costs m op rp / (price * (op + rp)) / 365 * 100 / 100 = _
    have h100 : ∀ x : ℚ, x * 100 / 100 = x := fun x => by ring
    rw [h100, div_div]
  · norm_num [comprehensive_fixed_cost_total, defaultModel]
  · norm_num [comprehensive_breakeven_occupancy_pct, comprehensive_fixed_cost_total,
      defaultModel]

theorem linspace_length (a b : ℚ) (n : ℕ) : (linspace a b n).length = n := by
  unfold linspace
  split
  · simp [*]
  · split
    · simp [*]
    · rw [List.length_map, List.length_range]

theorem linspace_one (a b : ℚ) : linspace a b 1 = [a] := rfl

theorem linspace_two (a b : ℚ) : linspace a b 2 = [a, a + (b - a)] := by
  norm_num [linspace, List.range_succ]

theorem dictSet_dictSet (d : ParamsDict) (k : String) (v w : PyVal) :
    dictSet (dictSet d k v) k w = dictSet d k w := by
  induction d with
  | nil => simp [dictSet]
  | cons hd tl ih =>
      obtain ⟨k', v'⟩ := hd
      by_cases h : k' = k
      · simp [dictSet, h]
      · simp [dictSet, h, ih]

theorem dictSet_find_eq (d : ParamsDict) (k : String) (v : PyVal)
    (h : dictFind d k = some v) : dictSet d k v = d := by
  induction d with
  | nil => simp [dictFind] at h
  | cons hd tl ih =>
      obtain ⟨k', v'⟩ := hd
      by_cases hk : k' = k
      · subst hk
        simp [dictFind] at h
        simp [dictSet, h]
      · simp [dictFind, hk] at h
        simp [dictSet, hk, ih h]

theorem dictSet_find_none (d : ParamsDict) (k : String) (v : PyVal)
    (h : dictFind d k = none) : dictSet d k v = d ++ [(k, v)] := by
  induction d with
  | nil => simp [dictSet]
  | cons hd tl ih =>
      obtain ⟨k', v'⟩ := hd
      by_cases hk : k' = k
      · simp [dictFind, hk] at h
      · simp [dictFind, hk] at h
        simp [dictSet, hk, ih h]

theorem dictFind_append_self (d : ParamsDict) (k : String) (v : PyVal)
    (h : dictFind d k = none) : dictFind (d ++ [(k, v)]) k = some v := by
  induction d with
  | nil => simp [dictFind]
  | cons hd tl ih =>
      obtain ⟨k', v'⟩ := hd
      by_cases hk : k' = k
      · simp [dictFind, hk] at h
      · simp [dictFind, hk] at h ⊢
        exact ih h

/-- A sweep step over a key that is present restores the dictionary. -/
theorem sweep_step_params_present (d : ParamsDict) (k : String) (v : PyVal)
    (hv : dictFind d k = some v) (val : ℚ) :
    sweep_step_params k d val = d := by
  unfold sweep_step_params dictGetDefault
  rw [hv, Option.getD_some, dictSet_dictSet, dictSet_find_eq d k v hv]

/-- A sweep step over a key that is absent appends that key with `None`. -/
theorem sweep_step_params_absent (d : ParamsDict) (k : String)
    (hv : dictFind d k = none) (val : ℚ) :
    sweep_step_params k d val = d ++ [(k, PyVal.pnone)] := by
  unfold sweep_step_params dictGetDefault
  rw [hv, Option.getD_none, dictSet_dictSet, dictSet_find_none d k _ hv]

theorem foldl_sweep_present (k : String) (v : PyVal) (vals : List ℚ) (d : ParamsDict)
    (hv : dictFind d k = some v) :
    vals.foldl (sweep_step_params k) d = d := by
  induction vals with
  | nil => rfl
  | cons x xs ih => rw [List.foldl_cons, sweep_step_params_present d k v hv x, ih]

theorem foldl_sweep_absent (k : String) (d : ParamsDict)
    (hv : dictFind d k = none) (x : ℚ) (xs : List ℚ) :
    (x :: xs).foldl (sweep_step_params k) d = d ++ [(k, PyVal.pnone)] := by
  rw [List.foldl_cons, sweep_step_params_absent d k hv x]
  exact foldl_sweep_present k PyVal.pnone xs _ (dictFind_append_self d k _ hv)

/-- C7 counterexample: `sensitivity_analysis` called with `steps = 1 < 2` is
not rejected with a ConfigurationError — it silently returns an ok
single-point result evaluated at `min_val`. -/
theorem no_rejection_counterexample :
    sensitivity_analysis defaultModel ("occupancy_rate") (1 / 5) (1 / 2) 1
      = Except.ok
          [{ value := 1 / 5
             total_profit := 15369000
             overall_roi := 5123 / 1220
             overall_payback := Payback.finite (122000 / 5123) }] := by
  norm_num [sensitivity_analysis, linspace_one, calculate_total_metrics,
    calculate_owned_property_metrics, calculate_rental_property_metrics,
    calculate_annual_revenue, calculate_variable_costs,
    FujimBusinessModel.variable_costs, orDefault, defaultModel]

/-- C7 amended: the engine performs no input validation and defines no
ConfigurationError: every sweep call returns an ok result with exactly `steps`
rows; `steps = 1` yields a single silently degenerate point at `min_val`
instead of an error; and a negative cost value (here `insurance = -60000`) is
accepted and simply flows into the metrics. (The reference occupancy rate
cannot be misconfigured at all: 0.33 is hard-coded at line 72.) -/
theorem no_validation (m : FujimBusinessModel) (param_name : String)
    (min_val max_val : ℚ) (steps : ℕ) :
    (∃ rows, sensitivity_analysis m param_name min_val max_val steps = Except.ok rows
        ∧ rows.length = steps) ∧
    (∃ row, sensitivity_analysis m param_name min_val max_val 1 = Except.ok [row]
        ∧ row.value = min_val) ∧
    (calculate_owned_property_metrics
        { defaultModel with fixed_costs_owned :=
            { operations_fixed := 400000, utilities_fixed := 80000, insurance := -60000 } }
        none none none).noi = 36750150 := by
  refine ⟨⟨_, rfl, ?_⟩, ⟨_, rfl, rfl⟩, ?_⟩
  · rw [List.length_map, linspace_length]
  · norm_num [calculate_owned_property_metrics, calculate_annual_revenue,
      calculate_variable_costs, FujimBusinessModel.variable_costs, orDefault, defaultModel]

/-- C8 counterexample: sweeping a parameter name the base dictionary does not
contain (here `"renovation_budget"`) leaves the caller's dictionary changed:
the restore step writes back the `None` that `dict.get` returned for the
missing key, so the key is left behind with value `None`. -/
theorem sweep_mutation_counterexample :
    sensitivity_params_after defaultParamsDict ("renovation_budget") (1 / 5) (1 / 2) 2
      = defaultParamsDict ++ [("renovation_budget", PyVal.pnone)] ∧
    sensitivity_params_after defaultParamsDict ("renovation_budget") (1 / 5) (1 / 2) 2
      ≠ defaultParamsDict := by
  have hfind : dictFind defaultParamsDict ("renovation_budget") = none := by
    simp [dictFind, defaultParamsDict]
  have hafter :
      sensitivity_params_after defaultParamsDict ("renovation_budget") (1 / 5) (1 / 2) 2
        = defaultParamsDict ++ [("renovation_budget", PyVal.pnone)] := by
    unfold sensitivity_params_after
    rw [if_neg (by decide), if_neg (by decide), linspace_two]
    exact foldl_sweep_absent ("renovation_budget") defaultParamsDict hfind _ _
  refine ⟨hafter, ?_⟩
  intro hcontra
  rw [hafter] at hcontra
  have hlen := congrArg List.length hcontra
  simp [defaultParamsDict] at hlen

/-- C8 amended: the sweep evaluates each point by mutating the shared
`self.params` dictionary in place and writing the saved entry back afterwards
(not by building an independent variant); after the call the dictionary is
unchanged both for the two dedicated branches (`occupancy_rate`,
`price_per_night`) and for every parameter name present in the base
dictionary, but a sweep over a name the base dictionary does not contain
leaves that key behind bound to `None`. -/
theorem sweep_params_restore (d : ParamsDict) (param_name : String)
    (min_val max_val : ℚ) (steps : ℕ) :
    (param_name = "occupancy_rate" ∨ param_name = "price_per_night" →
      sensitivity_params_after d param_name min_val max_val steps = d) ∧
    (∀ v, dictFind d param_name = some v →
      sensitivity_params_after d param_name min_val max_val steps = d) ∧
    (dictFind d param_name = none → param_name ≠ "occupancy_rate" →
      param_name ≠ "price_per_night" → 0 < steps →
      sensitivity_params_after d param_name min_val max_val steps
        = d ++ [(param_name, PyVal.pnone)]) := by
  refine ⟨fun h => ?_, fun v hv => ?_, fun hv h1 h2 hsteps => ?_⟩
  · rcases h with h | h <;> simp [sensitivity_params_after, h]
  · unfold sensitivity_params_after
    split
    · rfl
    · split
      · rfl
      · exact foldl_sweep_present param_name v _ d hv
  · unfold sensitivity_params_after
    rw [if_neg h1, if_neg h2]
    have hne : linspace min_val max_val steps ≠ [] := by
      intro hnil
      have hl := congrArg List.length hnil
      rw [linspace_length] at hl
      simp at hl
      omega
    obtain ⟨x, xs, hx⟩ := List.exists_cons_of_ne_nil hne
    rw [hx]
    exact foldl_sweep_absent param_name d hv x xs

/-- Witness for C8 (amended): a sweep over the present key `monthly_rent`
and a sweep over `occupancy_rate` both hand the default dictionary back
unchanged. -/
theorem sweep_params_restore_witness :
    sensitivity_params_after defaultParamsDict ("monthly_rent") (1 / 5) (1 / 2) 5
      = defaultParamsDict ∧
    sensitivity_params_after defaultParamsDict ("occupancy_rate") (1 / 5) (1 / 2) 5
      = defaultParamsDict := by
  refine ⟨(sweep_params_restore defaultParamsDict ("monthly_rent") (1 / 5) (1 / 2) 5).2.1
      (PyVal.pnum 70000) ?_,
    (sweep_params_restore defaultParamsDict ("occupancy_rate") (1 / 5) (1 / 2) 5).1
      (Or.inl rfl)⟩
  simp [dictFind, defaultParamsDict]

end Fujimi
